import Mathlib

/-!
Verification of the VoiceTranscript recording/transcription core.

This file shallowly embeds the session state machines and the durable-storage
contract of the application:

* `src/utils/storage.ts` — two-tier persistence: a metadata registry
  (localStorage, modelled as a list of payload-free records after the JSON
  round trip, which is the identity on these records) and a content store
  (IndexedDB `audioBlobs` object store, modelled as an association list from
  id to blob).
* `src/hooks/useAudioRecording.ts` — the capture session: wall-clock driven
  duration timer, pause/resume bookkeeping, chunk buffering, stop.
* `src/hooks/useSpeechRecognition.ts` — the transcription session: result
  accumulation, error/end handlers, manual-stop flag, restart scheduling.
* `src/App.tsx` — the session coordinator wiring the two hooks together and
  committing a finished `Recording` to storage.

Wall-clock instants are rationals in milliseconds; durations are rationals in
seconds, matching the exact arithmetic the code performs on `Date.now()`
values. Binary blobs are byte lists. Handlers read the React state current at
their invocation and apply their functional updates to it.
-/

namespace VoiceTranscript

/-- Binary audio payload (a browser `Blob`), modelled as its byte list. -/
structure Blob where
  data : List Nat
  deriving Repr, DecidableEq

/-- Size in bytes of a blob (`blob.size`). -/
def Blob.size (b : Blob) : Nat := b.data.length

/-- One `MediaRecorder` data chunk (`event.data` in `ondataavailable`). -/
structure Chunk where
  data : List Nat
  deriving Repr, DecidableEq

/-- Size in bytes of a chunk (`event.data.size`). -/
def Chunk.size (c : Chunk) : Nat := c.data.length

/-! ## Data model (`src/types/Recording.ts`) -/

/-- The durable unit of output (`interface Recording`). `createdAt` is the
`Date` as its millisecond timestamp; the JSON round trip through
`localStorage` (ISO string and back through `new Date`) is the identity on
it, so it is modelled directly as the timestamp. -/
structure Recording where
  id : String
  title : String
  audioBlob : Blob
  audioUrl : String
  transcription : String
  duration : ℚ
  createdAt : ℚ
  size : Nat
  deriving Repr, DecidableEq

/-- A metadata record as held in the registry: `Omit<Recording, 'audioBlob'>`
(`saveRecording` stores the record with `audioBlob: undefined`). -/
structure StoredRecording where
  id : String
  title : String
  audioUrl : String
  transcription : String
  duration : ℚ
  createdAt : ℚ
  size : Nat
  deriving Repr, DecidableEq

/-- Drop the blob from a recording, as `saveRecording` does before the
`localStorage` write. -/
def Recording.toStored (r : Recording) : StoredRecording :=
  { id := r.id, title := r.title, audioUrl := r.audioUrl,
    transcription := r.transcription, duration := r.duration,
    createdAt := r.createdAt, size := r.size }

/-- Re-attach a payload to a metadata record, as `getRecordingWithAudio`
does (`{ ...recording, audioBlob, createdAt: new Date(recording.createdAt) }`;
the `Date` round trip is the identity in this model). -/
def StoredRecording.withAudio (m : StoredRecording) (b : Blob) : Recording :=
  { id := m.id, title := m.title, audioBlob := b, audioUrl := m.audioUrl,
    transcription := m.transcription, duration := m.duration,
    createdAt := m.createdAt, size := m.size }

/-! ## Durable store (`src/utils/storage.ts`) -/

/-- The two independent persistence resources: the `voice-recordings`
localStorage entry (parsed) and the IndexedDB `audioBlobs` object store. -/
structure Storage where
  localStore : List StoredRecording
  audioBlobs : List (String × Blob)
  deriving Repr, DecidableEq

/-- Both stores empty. -/
def emptyStorage : Storage := { localStore := [], audioBlobs := [] }

/-- IndexedDB `store.put(audioBlob, id)`: insert or overwrite by key. -/
def storeAudioBlob (m : List (String × Blob)) (id : String) (b : Blob) :
    List (String × Blob) :=
  (id, b) :: m.filter (fun p => !(p.1 == id))

/-- IndexedDB `store.get(id)` with the `request.result || null` coercion. -/
def getAudioBlob (m : List (String × Blob)) (id : String) : Option Blob :=
  (m.find? (fun p => p.1 == id)).map Prod.snd

/-- IndexedDB `store.delete(id)`: removes the entry when present, succeeds
silently when absent. -/
def deleteAudioBlob (m : List (String × Blob)) (id : String) :
    List (String × Blob) :=
  m.filter (fun p => !(p.1 == id))

/-- `saveRecording`: append the payload-free record to the registry, then put
the blob into the content store keyed by `recording.id`. -/
def saveRecording (s : Storage) (r : Recording) : Storage :=
  { localStore := s.localStore ++ [r.toStored],
    audioBlobs := storeAudioBlob s.audioBlobs r.id r.audioBlob }

/-- `getStoredRecordings`: parse and return the registry contents. -/
def getStoredRecordings (s : Storage) : List StoredRecording :=
  s.localStore

/-- `deleteRecording`: filter the id out of the registry and delete the blob. -/
def deleteRecording (s : Storage) (id : String) : Storage :=
  { localStore := s.localStore.filter (fun r => !(r.id == id)),
    audioBlobs := deleteAudioBlob s.audioBlobs id }

/-- `getRecordingWithAudio`: find the metadata record, fetch the blob, merge;
`null` (here `none`) when either is missing. -/
def getRecordingWithAudio (s : Storage) (id : String) : Option Recording :=
  match s.localStore.find? (fun r => r.id == id) with
  | none => none
  | some m =>
    match getAudioBlob s.audioBlobs id with
    | none => none
    | some b => some (m.withAudio b)

/-- Modelled from the spec: `clearAllRecordings` is imported by
`RecordingsList.tsx` from `utils/storage` but its definition is absent from
the source tree; the spec says `clearAll()` "empties both stores entirely". -/
def clearAllRecordings (_ : Storage) : Storage :=
  { localStore := [], audioBlobs := [] }

/-! ## Storage claims -/

/-- C5: for every recording R saved into a store with no prior entry for
R.id, save(R) followed by loadWithPayload(R.id) returns a recording equal to
R in every field, including the audio payload bytes; loadWithPayload(id)
returns a not-found result when either the metadata record or the payload for
id is missing. -/
theorem c5_save_load_roundtrip (s : Storage) (r : Recording) (id : String)
    (h : ∀ m ∈ s.localStore, m.id ≠ r.id) :
    getRecordingWithAudio (saveRecording s r) r.id = some r
    ∧ (s.localStore.find? (fun m => m.id == id) = none →
        getRecordingWithAudio s id = none)
    ∧ (getAudioBlob s.audioBlobs id = none →
        getRecordingWithAudio s id = none) := by
  refine ⟨?_, ?_, ?_⟩
  · have hfind : s.localStore.find? (fun m => m.id == r.id) = none :=
      List.find?_eq_none.2 (fun m hm => by simp [h m hm])
    have hblob : getAudioBlob (storeAudioBlob s.audioBlobs r.id r.audioBlob)
        r.id = some r.audioBlob := by
      simp [getAudioBlob, storeAudioBlob]
    have hmerge : (r.toStored).withAudio r.audioBlob = r := by
      cases r
      rfl
    have happ : (s.localStore ++ [r.toStored]).find? (fun m => m.id == r.id)
        = some r.toStored := by
      rw [List.find?_append, hfind]
      simp [List.find?, Recording.toStored]
    simp [getRecordingWithAudio, saveRecording, happ, hblob, hmerge]
  · intro h2
    simp [getRecordingWithAudio, h2]
  · intro h3
    unfold getRecordingWithAudio
    cases hf : s.localStore.find? (fun m => m.id == id) with
    | none => rfl
    | some m => rw [h3]

/-- Concrete recording used to witness the round-trip claim. -/
def c5Recording : Recording :=
  { id := "r1", title := "t", audioBlob := ⟨[1, 2]⟩, audioUrl := "u",
    transcription := "hi", duration := 3 / 2, createdAt := 1000, size := 2 }

/-- Witness for C5 at a concrete store and recording. -/
theorem c5_save_load_roundtrip_witness :
    getRecordingWithAudio (saveRecording emptyStorage c5Recording)
      c5Recording.id = some c5Recording
    ∧ (emptyStorage.localStore.find? (fun m => m.id == "z") = none →
        getRecordingWithAudio emptyStorage "z" = none)
    ∧ (getAudioBlob emptyStorage.audioBlobs "z" = none →
        getRecordingWithAudio emptyStorage "z" = none) :=
  c5_save_load_roundtrip emptyStorage c5Recording "z"
    (by simp [emptyStorage])

/-- C6: clearAll() empties both the metadata registry and the content store:
after clearAll(), list() returns an empty collection, and for every id, a
subsequent loadWithPayload(id) returns not-found. -/
theorem c6_clear_all (s : Storage) (id : String) :
    getStoredRecordings (clearAllRecordings s) = []
    ∧ getRecordingWithAudio (clearAllRecordings s) id = none :=
  ⟨rfl, rfl⟩

/-- C9: delete(id) removes both the metadata record and the payload for id
even if one of them is already missing (both removals are by-id filters that
succeed on absent entries), and is idempotent by id: a second delete(id)
produces the same store with no error, and after either call list() contains
no record with that id and the content store yields no payload for it. -/
theorem c9_delete_idempotent (s : Storage) (id : String) :
    deleteRecording (deleteRecording s id) id = deleteRecording s id
    ∧ (∀ m ∈ getStoredRecordings (deleteRecording s id), m.id ≠ id)
    ∧ getAudioBlob (deleteRecording s id).audioBlobs id = none := by
  refine ⟨?_, ?_, ?_⟩
  · unfold deleteRecording deleteAudioBlob
    simp [List.filter_filter]
  · intro m hm
    simp [getStoredRecordings, deleteRecording, List.mem_filter] at hm
    exact hm.2
  · have hnone : ((deleteRecording s id).audioBlobs).find?
        (fun p => p.1 == id) = none := by
      apply List.find?_eq_none.2
      intro p hp
      simp [deleteRecording, deleteAudioBlob, List.mem_filter] at hp
      simp [hp.2]
    simp [getAudioBlob, hnone]

/-- Concrete two-recording store used to witness the delete claim. -/
def c9Storage : Storage :=
  { localStore :=
      [{ id := "a", title := "ta", audioUrl := "ua", transcription := "x",
         duration := 1, createdAt := 10, size := 1 },
       { id := "b", title := "tb", audioUrl := "ub", transcription := "y",
         duration := 2, createdAt := 20, size := 1 }],
    audioBlobs := [("a", ⟨[1]⟩), ("b", ⟨[2]⟩)] }

/-- Witness for C9 at `c9Storage` and id "a". -/
theorem c9_delete_idempotent_witness :
    deleteRecording (deleteRecording c9Storage "a") "a"
      = deleteRecording c9Storage "a"
    ∧ (∀ m ∈ getStoredRecordings (deleteRecording c9Storage "a"),
        m.id ≠ "a")
    ∧ getAudioBlob (deleteRecording c9Storage "a").audioBlobs "a" = none :=
  c9_delete_idempotent c9Storage "a"

/-! ## Capture session (`src/hooks/useAudioRecording.ts`) -/

/-- The React state of the capture session (`RecordingState`). `duration` is
in seconds, `audioLevel` normalized to [0, 1]. -/
structure RecordingState where
  isRecording : Bool
  isPaused : Bool
  duration : ℚ
  audioLevel : ℚ
  deriving Repr, DecidableEq

/-- The initial capture state (`useState` initializer, also set by stop). -/
def initialRecordingState : RecordingState :=
  { isRecording := false, isPaused := false, duration := 0, audioLevel := 0 }

/-- The full state of the `useAudioRecording` hook: React state plus the
mutable refs. `hasMediaRecorder` models `mediaRecorderRef.current !== null`,
`intervalActive` models `intervalRef.current !== null`. Times are wall-clock
milliseconds (`Date.now()`), kept exact as rationals. -/
structure AudioHook where
  recordingState : RecordingState
  hasMediaRecorder : Bool
  audioChunks : List Chunk
  startTime : ℚ
  pausedTime : ℚ
  intervalActive : Bool
  deriving Repr, DecidableEq

/-- The hook state before any session. -/
def initialAudioHook : AudioHook :=
  { recordingState := initialRecordingState, hasMediaRecorder := false,
    audioChunks := [], startTime := 0, pausedTime := 0,
    intervalActive := false }

/-- `startRecording` after the device grants access at wall time `now`:
clears the chunk buffer, records the start instant, zeroes the paused-time
accumulator, sets the fresh recording state, and starts the 100 ms duration
interval. -/
def startRecording (s : AudioHook) (now : ℚ) : AudioHook :=
  { s with
    audioChunks := []
    hasMediaRecorder := true
    startTime := now
    pausedTime := 0
    recordingState :=
      { isRecording := true, isPaused := false, duration := 0,
        audioLevel := 0 }
    intervalActive := true }

/-- One firing of the duration interval at wall time `now`
(`elapsed = (Date.now() - startTimeRef.current - pausedTimeRef.current) / 1000`).
The interval is cancelled only by `stopRecording`, so it also fires while the
session is paused. -/
def durationTick (s : AudioHook) (now : ℚ) : AudioHook :=
  if s.intervalActive then
    { s with recordingState :=
        { s.recordingState with
          duration := (now - s.startTime - s.pausedTime) / 1000 } }
  else s

/-- `ondataavailable`: buffer the chunk when it is non-empty. -/
def dataAvailable (s : AudioHook) (c : Chunk) : AudioHook :=
  if 0 < c.size then { s with audioChunks := s.audioChunks ++ [c] } else s

/-- `pauseRecording` at wall time `now`: toggles between pause and resume
when a recorder is active. The resume branch rebases `startTime` on the
current `duration` state value and zeroes `pausedTime`; the pause branch sets
`pausedTime` to `pausedTime + (now - startTime - pausedTime)`, i.e. to
`now - startTime`, and zeroes the displayed audio level. -/
def pauseRecording (s : AudioHook) (now : ℚ) : AudioHook :=
  if s.hasMediaRecorder && s.recordingState.isRecording then
    if s.recordingState.isPaused then
      { s with
        startTime := now - s.recordingState.duration * 1000
        pausedTime := 0
        recordingState := { s.recordingState with isPaused := false } }
    else
      { s with
        pausedTime := s.pausedTime + (now - s.startTime - s.pausedTime)
        recordingState :=
          { s.recordingState with
            isPaused := true
            audioLevel := 0 } }
  else s

/-- The rejection raised by `stopRecording` with no active session
(`reject(new Error('No active recording'))`; the spec names it
`NoActiveSessionError`). -/
inductive RecError where
  | noActiveRecording
  deriving Repr, DecidableEq

/-- `stopRecording`: with no recorder or no active recording it rejects and
touches nothing; otherwise it concatenates the buffered chunks into the
final blob, cancels the interval, resets the React state to the initial
values and releases the recorder. -/
def stopRecording (s : AudioHook) : Except RecError Blob × AudioHook :=
  if s.hasMediaRecorder && s.recordingState.isRecording then
    (Except.ok ⟨(s.audioChunks.map Chunk.data).flatten⟩,
      { s with
        hasMediaRecorder := false
        intervalActive := false
        recordingState := initialRecordingState })
  else
    (Except.error RecError.noActiveRecording, s)

/-! ## Capture session claims -/

/-- Capture state reached by: start at t=0 ms, duration tick at t=1000,
pause at t=1000. At this point the last sampled duration is 1 s and
`pausedTime` has been set to `1000 - 0 = 1000`. -/
def c1AfterPause : AudioHook :=
  pauseRecording (durationTick (startRecording initialAudioHook 0) 1000) 1000

/-- Continuing `c1AfterPause`: tick at t=3000 (still paused), resume at
t=3000, final tick at t=5200 — a run with 2 s of pause and 3.2 s of active
capture. -/
def c1Final : AudioHook :=
  durationTick (pauseRecording (durationTick c1AfterPause 3000) 3000) 5200

/-- C1 evaluated at a failing run (code bug): the duration interval is not
cancelled by the pause branch and `pausedTime` is set to `now - startTime`,
so ticks during the pause report `(now - pauseInstant)/1000` — the duration
value falls back towards 0 and keeps advancing while paused (1/2 s at
t=1500, 1 s at t=2000, instead of holding at the 1 s elapsed at pause). The
resume branch then rebases `startTime` on that drifted value, so the run
start 0 / pause 1000 / resume 3000 / stop 5200 reports 21/5 = 4.2 s where
the claimed wall-clock-minus-paused value is 3.2 s. -/
theorem c1_paused_duration_advances :
    (durationTick c1AfterPause 1500).recordingState.duration = 1 / 2
    ∧ (durationTick c1AfterPause 2000).recordingState.duration = 1
    ∧ c1AfterPause.recordingState.isPaused = true
    ∧ c1Final.recordingState.duration = 21 / 5 := by
  refine ⟨?_, ?_, ?_, ?_⟩ <;>
    norm_num [c1AfterPause, c1Final, durationTick, pauseRecording,
      startRecording, initialAudioHook, initialRecordingState]

/-- C8: calling stop with no active session fails with the no-active-session
rejection and leaves the hook state entirely unmutated. -/
theorem c8_stop_without_session (s : AudioHook)
    (h : s.hasMediaRecorder = false ∨ s.recordingState.isRecording = false) :
    stopRecording s = (Except.error RecError.noActiveRecording, s) := by
  unfold stopRecording
  rcases h with h | h <;> simp [h]

/-- Witness for C8 at the initial hook state. -/
theorem c8_stop_without_session_witness :
    stopRecording initialAudioHook
      = (Except.error RecError.noActiveRecording, initialAudioHook) :=
  c8_stop_without_session initialAudioHook (Or.inl rfl)

/-! ## Transcription session (`src/hooks/useSpeechRecognition.ts`)

Handlers read the React state current at their invocation and apply their
functional `setTranscriptionState` updates to it; `isManualStop` and
`recognitionRef` are refs and always current. -/

/-- The React state of the transcription session (`TranscriptionState`). -/
structure TranscriptionState where
  isListening : Bool
  transcript : String
  interimTranscript : String
  confidence : ℚ
  deriving Repr, DecidableEq

/-- The initial transcription state (`useState` initializer). -/
def initialTranscriptionState : TranscriptionState :=
  { isListening := false, transcript := "", interimTranscript := "",
    confidence := 0 }

/-- One recognition result segment (`event.results[i]`, first alternative):
its text, its confidence (after the `|| 0` coercion of an undefined value)
and the `isFinal` flag. -/
structure SpeechSegment where
  transcript : String
  confidence : ℚ
  isFinal : Bool
  deriving Repr, DecidableEq

/-- Recognition error kinds distinguished by the `onerror` handler. -/
inductive SpeechErrorKind where
  | notAllowed
  | noSpeech
  | other
  deriving Repr, DecidableEq

/-- The full state of the `useSpeechRecognition` hook: React state plus the
refs and the restart timers. `hasRecognition` models
`recognitionRef.current !== null`; `recognizerGen` counts
`new SpeechRecognition()` allocations, identifying the recognizer instance;
`recognizerRunning` is true between a `start()` call and the recognizer
stopping or ending; the two pending flags model the `setTimeout` restarts
scheduled by `onerror` (~1000 ms) and `onend` (~100 ms). -/
structure SpeechHook where
  transcriptionState : TranscriptionState
  hasRecognition : Bool
  recognizerRunning : Bool
  recognizerGen : Nat
  isManualStop : Bool
  pendingNoSpeechRestart : Bool
  pendingEndRestart : Bool
  deriving Repr, DecidableEq

/-- The hook state before any session. -/
def initialSpeechHook : SpeechHook :=
  { transcriptionState := initialTranscriptionState, hasRecognition := false,
    recognizerRunning := false, recognizerGen := 0, isManualStop := false,
    pendingNoSpeechRestart := false, pendingEndRestart := false }

/-- `recognition.onstart`: mark the session as listening. -/
def onstart (s : SpeechHook) : SpeechHook :=
  { s with transcriptionState :=
      { s.transcriptionState with isListening := true } }

/-- One iteration of the `onresult` loop body over the accumulator
(finalTranscript, interimTranscript, maxConfidence). -/
def processResult (acc : String × String × ℚ) (r : SpeechSegment) :
    String × String × ℚ :=
  if r.isFinal then
    (acc.1 ++ r.transcript ++ " ", acc.2.1, max acc.2.2 r.confidence)
  else
    (acc.1, acc.2.1 ++ r.transcript, acc.2.2)

/-- `recognition.onresult` over the segments of one update (the slice of
`event.results` from `event.resultIndex`): accumulate final and interim text
and the maximum final confidence, then append the final text to the
transcript, replace the interim transcript, and take the new confidence when
it is non-zero (the JavaScript `maxConfidence || prev.confidence`). -/
def onresult (s : SpeechHook) (segs : List SpeechSegment) : SpeechHook :=
  let acc := segs.foldl processResult ("", "", 0)
  { s with transcriptionState :=
      { s.transcriptionState with
        transcript := s.transcriptionState.transcript ++ acc.1
        interimTranscript := acc.2.1
        confidence :=
          if acc.2.2 = 0 then s.transcriptionState.confidence else acc.2.2 } }

/-- `recognition.onerror`: a permission error only alerts; a no-speech error
schedules the ~1 s automatic restart when the session was not deliberately
stopped and is listening; other errors only log. -/
def onerror (s : SpeechHook) (e : SpeechErrorKind) : SpeechHook :=
  match e with
  | SpeechErrorKind.noSpeech =>
    if !s.isManualStop && s.transcriptionState.isListening then
      { s with pendingNoSpeechRestart := true }
    else s
  | _ => s

/-- `recognition.onend`: the recognizer has stopped; clear the listening
flag and the interim transcript (the final transcript and confidence are
untouched), and schedule the ~100 ms automatic restart when the session was
not deliberately stopped and was listening when the handler fired. -/
def onend (s : SpeechHook) : SpeechHook :=
  { s with
    recognizerRunning := false
    transcriptionState :=
      { s.transcriptionState with
        isListening := false
        interimTranscript := "" }
    pendingEndRestart :=
      if !s.isManualStop && s.transcriptionState.isListening then true
      else s.pendingEndRestart }

/-- Firing of the ~1 s restart timer scheduled by the no-speech handler:
when a recognizer is still attached and no deliberate stop happened, call
`recognition.start()` on it — which starts the same recognizer again and
touches none of the accumulated transcription state. -/
def fireNoSpeechRestart (s : SpeechHook) : SpeechHook :=
  if s.hasRecognition && !s.isManualStop then
    { s with pendingNoSpeechRestart := false, recognizerRunning := true }
  else
    { s with pendingNoSpeechRestart := false }

/-- `startListening` (the supported-platform path is selected by the
`isSupported` argument; unsupported platforms only log a warning): stop any
current recognizer, allocate a fresh one, clear the manual-stop flag, reset
transcript, interim transcript and confidence, and start recognition. -/
def startListening (s : SpeechHook) (isSupported : Bool) : SpeechHook :=
  if isSupported then
    { s with
      hasRecognition := true
      recognizerRunning := true
      recognizerGen := s.recognizerGen + 1
      isManualStop := false
      transcriptionState :=
        { s.transcriptionState with
          transcript := ""
          interimTranscript := ""
          confidence := 0 } }
  else s

/-- `stopListening`: set the manual-stop flag (suppressing the automatic
restarts), stop the recognizer when one is attached and drop the reference.
The transcription state itself is not touched here; the recognizer's own
`onend` fires afterwards. -/
def stopListening (s : SpeechHook) : SpeechHook :=
  { s with
    isManualStop := true
    hasRecognition := false
    recognizerRunning := false }

/-! ## Transcription session claims

The specification reads the `onresult` loop as three independent
accumulations over the segments of one update; the lemmas below relate the
code's single left fold to that reading. -/

/-- Concatenation of the final segments' texts, each followed by the space
the handler appends. -/
def finalTranscriptOf : List SpeechSegment → String
  | [] => ""
  | r :: rs =>
    if r.isFinal then r.transcript ++ " " ++ finalTranscriptOf rs
    else finalTranscriptOf rs

/-- Concatenation of the in-progress (non-final) segments' texts. -/
def interimTranscriptOf : List SpeechSegment → String
  | [] => ""
  | r :: rs =>
    if r.isFinal then interimTranscriptOf rs
    else r.transcript ++ interimTranscriptOf rs

/-- Maximum confidence across the final segments of one update (0 when no
segment is final, matching the loop's accumulator start value). -/
def maxConfidenceOf : List SpeechSegment → ℚ
  | [] => 0
  | r :: rs =>
    if r.isFinal then max r.confidence (maxConfidenceOf rs)
    else maxConfidenceOf rs

/-- The maximum-final-confidence accumulator never goes below its 0 start. -/
lemma maxConfidenceOf_nonneg (segs : List SpeechSegment) :
    0 ≤ maxConfidenceOf segs := by
  induction segs with
  | nil => exact le_refl 0
  | cons r rs ih =>
    unfold maxConfidenceOf
    split
    · exact le_trans ih (le_max_right _ _)
    · exact ih

/-- Fusion of the `onresult` loop with the three specification-side
accumulations, for any starting accumulator with non-negative confidence. -/
lemma foldl_processResult (segs : List SpeechSegment) :
    ∀ f i : String, ∀ c : ℚ, 0 ≤ c →
      segs.foldl processResult (f, i, c)
        = (f ++ finalTranscriptOf segs, i ++ interimTranscriptOf segs,
            max c (maxConfidenceOf segs)) := by
  induction segs with
  | nil =>
    intro f i c hc
    simp [finalTranscriptOf, interimTranscriptOf, maxConfidenceOf,
      max_eq_left hc, String.append_empty]
  | cons r rs ih =>
    intro f i c hc
    simp only [List.foldl_cons, processResult, finalTranscriptOf,
      interimTranscriptOf, maxConfidenceOf]
    cases hfin : r.isFinal with
    | true =>
      simp only [hfin, if_true]
      rw [ih (f ++ r.transcript ++ " ") i (max c r.confidence)
        (le_trans hc (le_max_left _ _))]
      simp [String.append_assoc, max_assoc]
    | false =>
      simp only [hfin, Bool.false_eq_true, if_false]
      rw [ih f (i ++ r.transcript) c hc, String.append_assoc]

/-- C4 amended: on each recognition update the in-progress segments'
concatenation replaces the interim transcript wholesale, the final segments'
texts are appended to the (append-only) transcript, and the confidence
becomes the maximum across the update's final segments when that maximum is
non-zero, keeping its previous value otherwise — in particular also when a
segment finalized with confidence 0, because of the JavaScript
`maxConfidence || prev.confidence` falsy check. -/
theorem c4_onresult_update (s : SpeechHook) (segs : List SpeechSegment) :
    (onresult s segs).transcriptionState.transcript
      = s.transcriptionState.transcript ++ finalTranscriptOf segs
    ∧ (onresult s segs).transcriptionState.interimTranscript
      = interimTranscriptOf segs
    ∧ (onresult s segs).transcriptionState.confidence
      = (if maxConfidenceOf segs = 0 then s.transcriptionState.confidence
          else maxConfidenceOf segs) := by
  have h := foldl_processResult segs "" "" 0 (le_refl 0)
  have hmax : max (0 : ℚ) (maxConfidenceOf segs) = maxConfidenceOf segs :=
    max_eq_right (maxConfidenceOf_nonneg segs)
  unfold onresult
  rw [h]
  simp [String.empty_append, hmax]

/-- Concrete transcription hook state with a previously finalized segment
and a non-zero confidence. -/
def c4State : SpeechHook :=
  { transcriptionState :=
      { isListening := true, transcript := "a ", interimTranscript := "",
        confidence := 1 / 2 }
    hasRecognition := true
    recognizerRunning := true
    recognizerGen := 1
    isManualStop := false
    pendingNoSpeechRestart := false
    pendingEndRestart := false }

/-- The update that falsifies C4 as stated: a single segment finalizes with
confidence 0. -/
def c4Update : List SpeechSegment :=
  [{ transcript := "b", confidence := 0, isFinal := true }]

/-- C4 counterexample: the update contains a final segment and the maximum
confidence across its final segments is 0, so the claim requires the new
confidence to be that maximum (0); the code instead keeps the previous value
1/2 because `maxConfidence || prev.confidence` treats 0 as falsy. -/
theorem c4_counterexample :
    c4Update.any (fun r => r.isFinal) = true
    ∧ maxConfidenceOf c4Update = 0
    ∧ (onresult c4State c4Update).transcriptionState.confidence = 1 / 2
    ∧ ¬ (onresult c4State c4Update).transcriptionState.confidence
        = maxConfidenceOf c4Update := by
  refine ⟨rfl, ?_, ?_, ?_⟩ <;>
    norm_num [onresult, processResult, maxConfidenceOf, c4State, c4Update]

/-- C3: after a transient no-speech recognition failure in a session that
was not deliberately stopped, the error handler schedules the ~1 s automatic
restart; firing it starts the recognizer again and the finalized transcript
is preserved exactly (the restart path never touches `transcript`); a
deliberate stop sets the manual-stop flag, which makes the error handler
schedule nothing and the timer body start nothing. -/
theorem c3_no_speech_auto_restart (s : SpeechHook)
    (hm : s.isManualStop = false)
    (hl : s.transcriptionState.isListening = true)
    (hr : s.hasRecognition = true)
    (hp : s.pendingNoSpeechRestart = false) :
    (onerror s SpeechErrorKind.noSpeech).pendingNoSpeechRestart = true
    ∧ (onstart (fireNoSpeechRestart (onend
          (onerror s SpeechErrorKind.noSpeech)))).transcriptionState.transcript
        = s.transcriptionState.transcript
    ∧ (onstart (fireNoSpeechRestart (onend
          (onerror s SpeechErrorKind.noSpeech)))).recognizerRunning = true
    ∧ (onstart (fireNoSpeechRestart (onend
          (onerror s SpeechErrorKind.noSpeech)))).transcriptionState.isListening
        = true
    ∧ (onerror (stopListening s) SpeechErrorKind.noSpeech).pendingNoSpeechRestart
        = false
    ∧ (fireNoSpeechRestart (stopListening s)).recognizerRunning = false := by
  refine ⟨?_, ?_, ?_, ?_, ?_, ?_⟩ <;>
    simp [onerror, onend, onstart, fireNoSpeechRestart, stopListening,
      hm, hl, hr, hp]

/-- Concrete listening session with accumulated transcript, used to witness
the auto-restart claim. -/
def c3State : SpeechHook :=
  { transcriptionState :=
      { isListening := true, transcript := "hello ", interimTranscript := "",
        confidence := 9 / 10 }
    hasRecognition := true
    recognizerRunning := true
    recognizerGen := 1
    isManualStop := false
    pendingNoSpeechRestart := false
    pendingEndRestart := false }

/-- Witness for C3 at `c3State`. -/
theorem c3_no_speech_auto_restart_witness :
    (onerror c3State SpeechErrorKind.noSpeech).pendingNoSpeechRestart = true
    ∧ (onstart (fireNoSpeechRestart (onend
          (onerror c3State SpeechErrorKind.noSpeech)))).transcriptionState.transcript
        = c3State.transcriptionState.transcript
    ∧ (onstart (fireNoSpeechRestart (onend
          (onerror c3State SpeechErrorKind.noSpeech)))).recognizerRunning = true
    ∧ (onstart (fireNoSpeechRestart (onend
          (onerror c3State SpeechErrorKind.noSpeech)))).transcriptionState.isListening
        = true
    ∧ (onerror (stopListening c3State)
          SpeechErrorKind.noSpeech).pendingNoSpeechRestart = false
    ∧ (fireNoSpeechRestart (stopListening c3State)).recognizerRunning = false :=
  c3_no_speech_auto_restart c3State rfl rfl rfl rfl

/-- Concrete listening session used to refute the transcription half of C7. -/
def c7State : SpeechHook :=
  { transcriptionState :=
      { isListening := true, transcript := "hello ", interimTranscript := "hel",
        confidence := 9 / 10 }
    hasRecognition := true
    recognizerRunning := true
    recognizerGen := 1
    isManualStop := false
    pendingNoSpeechRestart := false
    pendingEndRestart := false }

/-- C7 counterexample: stopping the transcription session (`stopListening`
followed by the recognizer's `onend`) leaves the finalized transcript and the
confidence untouched — they are not reset to empty/zero as the claim states. -/
theorem c7_counterexample :
    (onend (stopListening c7State)).transcriptionState.transcript = "hello "
    ∧ (onend (stopListening c7State)).transcriptionState.confidence = 9 / 10
    ∧ ¬ (onend (stopListening c7State)).transcriptionState.transcript = ""
    ∧ ¬ (onend (stopListening c7State)).transcriptionState.confidence = 0 := by
  refine ⟨rfl, rfl, ?_, ?_⟩
  · intro h
    simp [onend, stopListening, c7State] at h
  · intro h
    rw [show (onend (stopListening c7State)).transcriptionState.confidence
        = 9 / 10 from rfl] at h
    norm_num at h

/-- C7 amended: after a successful Capture Session stop the capture state is
reset to its initial values (isRecording=false, isPaused=false, duration=0,
audioLevel=0); after a Transcription Session stop the listening flag is
cleared and the interim transcript is emptied by the recognizer's `onend`,
while the finalized transcript and the confidence are retained (the app
reads the transcript after stop to build the saved Recording). -/
theorem c7_stop_resets (a : AudioHook) (s : SpeechHook)
    (h1 : a.hasMediaRecorder = true)
    (h2 : a.recordingState.isRecording = true) :
    (stopRecording a).2.recordingState = initialRecordingState
    ∧ (onend (stopListening s)).transcriptionState
      = { s.transcriptionState with
          isListening := false
          interimTranscript := "" } := by
  constructor
  · simp [stopRecording, h1, h2]
  · simp [onend, stopListening]

/-- Concrete active capture session used to witness the amended C7. -/
def c7Audio : AudioHook :=
  { recordingState :=
      { isRecording := true, isPaused := false, duration := 2, audioLevel := 1 / 4 }
    hasMediaRecorder := true
    audioChunks := [⟨[7]⟩]
    startTime := 0
    pausedTime := 0
    intervalActive := true }

/-- Witness for the amended C7 at `c7Audio` and `c7State`. -/
theorem c7_stop_resets_witness :
    (stopRecording c7Audio).2.recordingState = initialRecordingState
    ∧ (onend (stopListening c7State)).transcriptionState
      = { c7State.transcriptionState with
          isListening := false
          interimTranscript := "" } :=
  c7_stop_resets c7Audio c7State rfl rfl

/-! ## Session coordinator (`src/App.tsx`)

The App couples the two hooks through its effect: whenever
`isRecording && !isPaused` holds after a capture transition it calls
`startListening()`, otherwise `stopListening()`. `handleStopRecording`
builds the `Recording` from the capture duration and the finalized
transcript and commits it with `saveRecording`. The coordinator is modelled
on a platform with speech support (`isSupported = true`). -/

/-- Combined application state: both hooks and the durable store. -/
structure AppState where
  audio : AudioHook
  speech : SpeechHook
  storage : Storage
  deriving Repr, DecidableEq

/-- Application state before any interaction. -/
def initialAppState : AppState :=
  { audio := initialAudioHook, speech := initialSpeechHook,
    storage := emptyStorage }

/-- Events driving a coordinated session: the three user controls and the
asynchronous callbacks from the capture device and the recognizer. -/
inductive AppEvent where
  | userStart (now : ℚ)
  | togglePause (now : ℚ)
  | userStop (now : ℚ) (id : String)
  | audioTick (now : ℚ)
  | audioData (c : Chunk)
  | recStart
  | recResult (segs : List SpeechSegment)
  | recError (e : SpeechErrorKind)
  | recEnd
  deriving Repr, DecidableEq

/-- JavaScript `String.prototype.trim()`: strip whitespace from both ends
(structural model over the character list). -/
def jsTrim (s : String) : String :=
  ⟨((s.data.dropWhile Char.isWhitespace).reverse.dropWhile
      Char.isWhitespace).reverse⟩

/-- Title derivation in `handleStopRecording`: first 50 characters of the
transcript plus an ellipsis, or a timestamp label when the transcript is
empty; trimmed. -/
def mkTitle (transcript : String) (fallback : String) : String :=
  jsTrim (if transcript = "" then fallback else transcript.take 50 ++ "...")

/-- The `Recording` object assembled in `handleStopRecording`. -/
def buildRecording (id : String) (transcript : String) (dur : ℚ) (now : ℚ)
    (blob : Blob) : Recording :=
  { id := id
    title := mkTitle transcript ("録音 " ++ id)
    audioBlob := blob
    audioUrl := "blob:" ++ id
    transcription := jsTrim transcript
    duration := dur
    createdAt := now
    size := blob.size }

/-- One coordinator transition. User controls run the capture operation and
then the coupling effect on the resulting capture state; recognizer and
recorder callbacks are routed to their handlers. `userStop` reads the
duration and transcript the App's closures hold (their values before the
stop resets the capture state; `stopListening` does not change the
transcript) and commits the built recording unless the stop was rejected. -/
def appStep (s : AppState) (e : AppEvent) : AppState :=
  match e with
  | AppEvent.userStart now =>
    let a := startRecording s.audio now
    { s with audio := a, speech := startListening s.speech true }
  | AppEvent.togglePause now =>
    let a := pauseRecording s.audio now
    if a.recordingState.isRecording && !a.recordingState.isPaused then
      { s with audio := a, speech := startListening s.speech true }
    else
      { s with audio := a, speech := stopListening s.speech }
  | AppEvent.userStop now id =>
    let transcript := s.speech.transcriptionState.transcript
    let dur := s.audio.recordingState.duration
    let res := stopRecording s.audio
    let sp := stopListening s.speech
    match res.1 with
    | Except.error _ => { s with audio := res.2, speech := sp }
    | Except.ok blob =>
      { s with
        audio := res.2
        speech := sp
        storage := saveRecording s.storage
          (buildRecording id transcript dur now blob) }
  | AppEvent.audioTick now => { s with audio := durationTick s.audio now }
  | AppEvent.audioData c => { s with audio := dataAvailable s.audio c }
  | AppEvent.recStart => { s with speech := onstart s.speech }
  | AppEvent.recResult segs => { s with speech := onresult s.speech segs }
  | AppEvent.recError e => { s with speech := onerror s.speech e }
  | AppEvent.recEnd => { s with speech := onend s.speech }

/-- Run a coordinated session from the initial application state. -/
def runApp (es : List AppEvent) : AppState :=
  es.foldl appStep initialAppState

/-! ## Coordinator claims -/

/-- C10: every `startListening` call on a supported platform resets
transcript, interim transcript and confidence before recognition begins,
allocating a fresh recognizer in place of any active one, so the call is not
idempotent and discards the previously accumulated transcript; and the
coordinator's coupling effect invokes `startListening` again whenever
capture resumes from pause. -/
theorem c10_start_listening_discards (s : SpeechHook) (a : AudioHook)
    (st : Storage) (now : ℚ)
    (hm : a.hasMediaRecorder = true)
    (hr : a.recordingState.isRecording = true)
    (hp : a.recordingState.isPaused = true) :
    (startListening s true).transcriptionState.transcript = ""
    ∧ (startListening s true).transcriptionState.interimTranscript = ""
    ∧ (startListening s true).transcriptionState.confidence = 0
    ∧ (startListening s true).recognizerGen = s.recognizerGen + 1
    ∧ (startListening s true).recognizerRunning = true
    ∧ (s.transcriptionState.transcript ≠ "" →
        (startListening s true).transcriptionState.transcript
          ≠ s.transcriptionState.transcript)
    ∧ (appStep { audio := a, speech := s, storage := st }
          (AppEvent.togglePause now)).speech = startListening s true := by
  refine ⟨rfl, rfl, rfl, rfl, rfl, ?_, ?_⟩
  · intro h heq
    apply h
    rw [show (startListening s true).transcriptionState.transcript = ""
      from rfl] at heq
    exact heq.symm
  · simp [appStep, pauseRecording, hm, hr, hp]

/-- Concrete paused capture session used to witness C10. -/
def c10Audio : AudioHook :=
  { recordingState :=
      { isRecording := true, isPaused := true, duration := 1, audioLevel := 0 }
    hasMediaRecorder := true
    audioChunks := [⟨[5]⟩]
    startTime := 0
    pausedTime := 1000
    intervalActive := true }

/-- Concrete transcription session with accumulated transcript, used to
witness C10. -/
def c10Speech : SpeechHook :=
  { transcriptionState :=
      { isListening := false, transcript := "old text ",
        interimTranscript := "", confidence := 3 / 4 }
    hasRecognition := false
    recognizerRunning := false
    recognizerGen := 1
    isManualStop := true
    pendingNoSpeechRestart := false
    pendingEndRestart := false }

/-- Witness for C10 at `c10Speech` and `c10Audio`. -/
theorem c10_start_listening_discards_witness :
    (startListening c10Speech true).transcriptionState.transcript = ""
    ∧ (startListening c10Speech true).transcriptionState.interimTranscript = ""
    ∧ (startListening c10Speech true).transcriptionState.confidence = 0
    ∧ (startListening c10Speech true).recognizerGen
      = c10Speech.recognizerGen + 1
    ∧ (startListening c10Speech true).recognizerRunning = true
    ∧ (c10Speech.transcriptionState.transcript ≠ "" →
        (startListening c10Speech true).transcriptionState.transcript
          ≠ c10Speech.transcriptionState.transcript)
    ∧ (appStep { audio := c10Audio, speech := c10Speech, storage := emptyStorage }
          (AppEvent.togglePause 2000)).speech = startListening c10Speech true :=
  c10_start_listening_discards c10Speech c10Audio emptyStorage 2000 rfl rfl rfl

/-- The C2 scenario trace: the session starts at t=0 ms, the recognizer
starts and delivers one interim update "hel" and one final update "hello"
with confidence 9/10, a tick samples the duration at t=1000, the user pauses
at t=1000 (the recognizer is stopped and its end event fires), a tick fires
at t=1200 while paused, the user resumes at t=1200 (wall-clock pause length
0.2 s), the recognizer restarts, a tick samples at t=3400, and the user
stops at t=3400 — 3.2 s of active capture. -/
def c2Trace : List AppEvent :=
  [AppEvent.userStart 0,
   AppEvent.recStart,
   AppEvent.audioData ⟨[1, 2, 3]⟩,
   AppEvent.recResult [{ transcript := "hel", confidence := 0, isFinal := false }],
   AppEvent.recResult [{ transcript := "hello", confidence := 9 / 10, isFinal := true }],
   AppEvent.audioTick 1000,
   AppEvent.togglePause 1000,
   AppEvent.recEnd,
   AppEvent.audioTick 1200,
   AppEvent.togglePause 1200,
   AppEvent.recStart,
   AppEvent.audioTick 3400,
   AppEvent.userStop 3400 "r1"]

/-- C2 evaluated at the scenario (code bug): the resulting Recording has
`transcription = ""` — the resume invoked `startListening`, which reset the
accumulated "hello " — and `duration = 12/5` (2.4 s), the capture timer bug
having rebased the start instant on the drifted pause-time value, where the
claim expects `transcription = "hello"` and a duration within the 100 ms
sampling resolution of 3.2 s. Only the audio payload expectation
(`size > 0`, here 3 bytes) holds. -/
theorem c2_scenario_eval :
    (runApp c2Trace).storage.localStore.map
        (fun m => (m.transcription, m.duration, m.size))
      = [("", 12 / 5, 3)]
    ∧ getAudioBlob (runApp c2Trace).storage.audioBlobs "r1"
      = some ⟨[1, 2, 3]⟩ := by
  constructor <;>
    norm_num [runApp, c2Trace, appStep, startRecording, durationTick,
      pauseRecording, stopRecording, dataAvailable, startListening,
      stopListening, onstart, onresult, onend, onerror,
      processResult, initialAppState, initialAudioHook, initialSpeechHook,
      initialRecordingState, initialTranscriptionState, saveRecording,
      storeAudioBlob, getAudioBlob, buildRecording, mkTitle, jsTrim,
      Blob.size, Chunk.size, Recording.toStored, emptyStorage]

end VoiceTranscript
